import Mathlib

set_option maxRecDepth 10000

/-!
Verification of the tax calculation engine of `src/server.py`.

The engine is pure arithmetic on decimal numbers; we embed it over `ℚ`
(exact rational arithmetic), the algebraic reading of the decimal
constants appearing in the source (`0.05`, `0.04`, …).  Python's
`round(x, 2)` (round-half-to-even on the scaled value) is modelled by
`round2` below.
-/

/-- Input shape of the `/api/calculate-tax` endpoint
(`TaxCalculationRequest` in `src/server.py`). -/
structure TaxCalculationRequest where
  income : ℚ
  deductions_80c : ℚ
  deductions_80d : ℚ
  hra_exemption : ℚ
  other_deductions : ℚ
  regime : String
deriving DecidableEq

/-- Output shape of the `/api/calculate-tax` endpoint
(`TaxCalculationResponse` in `src/server.py`). -/
structure TaxCalculationResponse where
  gross_income : ℚ
  total_deductions : ℚ
  taxable_income : ℚ
  tax_amount : ℚ
  cess : ℚ
  total_tax : ℚ
  effective_rate : ℚ
  regime : String
deriving DecidableEq

/-- `calculate_tax_old_regime` from `src/server.py` (lines 109-118):
old-regime FY 2024-25 bracket tax. -/
def calculate_tax_old_regime (taxable_income : ℚ) : ℚ :=
  if taxable_income ≤ 250000 then 0
  else if taxable_income ≤ 500000 then (taxable_income - 250000) * 0.05
  else if taxable_income ≤ 1000000 then 12500 + (taxable_income - 500000) * 0.20
  else 12500 + 100000 + (taxable_income - 1000000) * 0.30

/-- `calculate_tax_new_regime` from `src/server.py` (lines 120-133):
new-regime FY 2024-25 bracket tax. -/
def calculate_tax_new_regime (taxable_income : ℚ) : ℚ :=
  if taxable_income ≤ 300000 then 0
  else if taxable_income ≤ 700000 then (taxable_income - 300000) * 0.05
  else if taxable_income ≤ 1000000 then 20000 + (taxable_income - 700000) * 0.10
  else if taxable_income ≤ 1200000 then 20000 + 30000 + (taxable_income - 1000000) * 0.15
  else if taxable_income ≤ 1500000 then 20000 + 30000 + 30000 + (taxable_income - 1200000) * 0.20
  else 20000 + 30000 + 30000 + 60000 + (taxable_income - 1500000) * 0.30

/-- Round a rational to the nearest integer, ties to even
(the tie rule of Python's `round`). -/
def roundHalfEven (x : ℚ) : ℤ :=
  if Int.fract x = 1/2 then 2 * round (x / 2) else round x

/-- Model of Python's `round(x, 2)`: round to two decimal places,
ties to even. -/
def round2 (x : ℚ) : ℚ :=
  (roundHalfEven (x * 100) : ℚ) / 100

/-- The tail of `calculate_tax` shared by both regime branches
(`src/server.py` lines 247-260): cess, total tax, effective rate,
and assembly of the response. -/
def build_tax_response (income : ℚ) (regime : String)
    (total_deductions taxable_income tax_amount : ℚ) : TaxCalculationResponse :=
  let cess := tax_amount * 0.04
  let total_tax := tax_amount + cess
  let effective_rate := if income > 0 then total_tax / income * 100 else 0
  { gross_income := income
    total_deductions := total_deductions
    taxable_income := taxable_income
    tax_amount := tax_amount
    cess := cess
    total_tax := total_tax
    effective_rate := round2 effective_rate
    regime := regime }

/-- `calculate_tax` from `src/server.py` (lines 224-260): the
`/api/calculate-tax` handler.  The string comparison `regime == "old"`
selects the old-regime branch; every other regime string takes the
else branch (new regime with the section 87A rebate). -/
def calculate_tax (request : TaxCalculationRequest) : TaxCalculationResponse :=
  if request.regime = "old" then
    let total_deductions := min request.deductions_80c 150000 +
      min request.deductions_80d 75000 +
      request.hra_exemption +
      request.other_deductions
    let taxable_income := max 0 (request.income - total_deductions)
    let tax_amount := calculate_tax_old_regime taxable_income
    build_tax_response request.income request.regime total_deductions taxable_income tax_amount
  else
    let total_deductions : ℚ := 75000
    let taxable_income := max 0 (request.income - total_deductions)
    let tax_amount := calculate_tax_new_regime taxable_income
    let tax_amount := if taxable_income ≤ 700000 then 0 else tax_amount
    build_tax_response request.income request.regime total_deductions taxable_income tax_amount

/-- C1: OLD regime, grossIncome 1,200,000, 80C 200,000 (capped to
150,000), 80D 30,000, HRA 50,000, other 0 yields totalDeductions
230,000, taxableIncome 970,000, baseTax 106,500, cess 4,260, totalTax
110,760, effectiveRatePercent 9.23. -/
theorem calculate_tax_old_example :
    calculate_tax
      { income := 1200000, deductions_80c := 200000, deductions_80d := 30000,
        hra_exemption := 50000, other_deductions := 0, regime := "old" } =
      { gross_income := 1200000, total_deductions := 230000,
        taxable_income := 970000, tax_amount := 106500, cess := 4260,
        total_tax := 110760, effective_rate := 9.23, regime := "old" } := by
  simp only [calculate_tax, build_tax_response, calculate_tax_old_regime, round2, roundHalfEven,
    round_eq, Int.fract]
  norm_num

/-- C2: for every request taking the new-regime branch (regime not
"old"), if the computed taxable income is at most 700,000 the returned
base tax is 0 (section 87A rebate), whatever the bracket formula gives. -/
theorem new_regime_rebate (req : TaxCalculationRequest) (h : req.regime ≠ "old")
    (h7 : (calculate_tax req).taxable_income ≤ 700000) :
    (calculate_tax req).tax_amount = 0 := by
  simp only [calculate_tax, build_tax_response, if_neg h] at h7 ⊢
  rw [if_pos h7]

/-- C2 witness: at income 775,000 under regime "new" the taxable income
is exactly 700,000 (boundary inclusive) and the base tax is 0. -/
theorem new_regime_rebate_witness :
    (calculate_tax
      { income := 775000, deductions_80c := 0, deductions_80d := 0,
        hra_exemption := 0, other_deductions := 0, regime := "new" }).tax_amount = 0 :=
  new_regime_rebate _ (by decide)
    (by
      simp only [calculate_tax, build_tax_response,
        if_neg (show ¬ ("new" : String) = "old" by decide)]
      norm_num)

/-- C3: for every request taking the new-regime branch, the returned
total deductions are exactly 75,000 and the four itemized deduction
inputs have no effect on the result. -/
theorem new_regime_flat_deduction (req : TaxCalculationRequest) (h : req.regime ≠ "old")
    (a b c d : ℚ) :
    (calculate_tax req).total_deductions = 75000 ∧
    calculate_tax
      { req with
        deductions_80c := a, deductions_80d := b,
        hra_exemption := c, other_deductions := d } = calculate_tax req := by
  refine ⟨?_, ?_⟩ <;>
    simp only [calculate_tax, build_tax_response, if_neg h]

/-- C3 witness: at income 1,000,000 under regime "new", total
deductions are 75,000 and replacing all itemized inputs by 999,999
leaves the result unchanged. -/
theorem new_regime_flat_deduction_witness :
    (calculate_tax
      { income := 1000000, deductions_80c := 5, deductions_80d := 6,
        hra_exemption := 7, other_deductions := 8, regime := "new" }).total_deductions = 75000 ∧
    calculate_tax
      { income := 1000000, deductions_80c := 999999, deductions_80d := 999999,
        hra_exemption := 999999, other_deductions := 999999, regime := "new" } =
    calculate_tax
      { income := 1000000, deductions_80c := 5, deductions_80d := 6,
        hra_exemption := 7, other_deductions := 8, regime := "new" } :=
  new_regime_flat_deduction
    { income := 1000000, deductions_80c := 5, deductions_80d := 6,
      hra_exemption := 7, other_deductions := 8, regime := "new" }
    (by decide) 999999 999999 999999 999999

/-- C5 counterexample: under regime "new" with income 775,001 the
computed taxable income is exactly 700,001, yet the returned base tax
is not 20,000.05: the 5% slab stops at 700,000 and the code returns
20,000 + (700,001 - 700,000) * 0.10 = 20,000.10. -/
theorem new_regime_700001_not_five_percent :
    (calculate_tax
      { income := 775001, deductions_80c := 0, deductions_80d := 0,
        hra_exemption := 0, other_deductions := 0, regime := "new" }).taxable_income
        = 700001 ∧
    (calculate_tax
      { income := 775001, deductions_80c := 0, deductions_80d := 0,
        hra_exemption := 0, other_deductions := 0, regime := "new" }).tax_amount
        ≠ 20000.05 := by
  refine ⟨?_, ?_⟩ <;>
    · simp only [calculate_tax, build_tax_response, calculate_tax_new_regime,
        if_neg (show ¬ ("new" : String) = "old" by decide)]
      norm_num

/-- C5 (amended): for every request taking the new-regime branch whose
computed taxable income is exactly 700,001, the rebate does not apply
and the returned base tax is 20,000 + (700,001 - 700,000) * 0.10 =
20,000.10, from the 10% slab. -/
theorem new_regime_just_above_rebate (req : TaxCalculationRequest)
    (h : req.regime ≠ "old")
    (h7 : (calculate_tax req).taxable_income = 700001) :
    (calculate_tax req).tax_amount = 20000.1 := by
  simp only [calculate_tax, build_tax_response, if_neg h] at h7 ⊢
  rw [h7]
  norm_num [calculate_tax_new_regime]

/-- C5 witness: income 775,001 under regime "new" gives taxable income
exactly 700,001 and base tax 20,000.10. -/
theorem new_regime_just_above_rebate_witness :
    (calculate_tax
      { income := 775001, deductions_80c := 0, deductions_80d := 0,
        hra_exemption := 0, other_deductions := 0, regime := "new" }).tax_amount
      = 20000.1 :=
  new_regime_just_above_rebate _ (by decide)
    (by
      simp only [calculate_tax, build_tax_response,
        if_neg (show ¬ ("new" : String) = "old" by decide)]
      norm_num)

/-- C6: for every request, in both regime branches, the returned cess
is exactly 0.04 times the returned (post-rebate) base tax, and the
returned total tax is base tax plus cess. -/
theorem cess_and_total_tax (req : TaxCalculationRequest) :
    (calculate_tax req).cess = 0.04 * (calculate_tax req).tax_amount ∧
    (calculate_tax req).total_tax =
      (calculate_tax req).tax_amount + (calculate_tax req).cess := by
  simp only [calculate_tax, build_tax_response]
  split_ifs <;> exact ⟨by ring, rfl⟩

/-- `round2 0 = 0`: rounding zero to two decimal places gives zero. -/
lemma round2_zero : round2 0 = 0 := by
  norm_num [round2, roundHalfEven, round_eq, Int.fract]

/-- The effective-rate field produced by the shared response tail:
`round2` of the rate when income is positive, else `round2 0 = 0`. -/
lemma build_tax_response_effective_rate (income : ℚ) (regime : String)
    (td ti ta : ℚ) :
    (build_tax_response income regime td ti ta).effective_rate =
      if income > 0 then
        round2 ((build_tax_response income regime td ti ta).total_tax / income * 100)
      else 0 := by
  simp only [build_tax_response]
  split_ifs with h
  · rfl
  · exact round2_zero

/-- C7: the returned effective rate is round(totalTax / income * 100, 2)
when income > 0 and 0 otherwise (in particular it is 0 at income = 0:
the division is never taken there). -/
theorem effective_rate_safe (req : TaxCalculationRequest) :
    (calculate_tax req).effective_rate =
      if req.income > 0 then
        round2 ((calculate_tax req).total_tax / req.income * 100)
      else 0 := by
  simp only [calculate_tax]
  by_cases h : req.regime = "old"
  · rw [if_pos h]
    exact build_tax_response_effective_rate _ _ _ _ _
  · rw [if_neg h]
    exact build_tax_response_effective_rate _ _ _ _ _

/-- C8: old regime with all deduction inputs zero: base tax is 0 at
income 250,000, is 12,500 at income 500,000, and is 112,500 at income
1,000,000. -/
theorem old_regime_bracket_points :
    (calculate_tax
      { income := 250000, deductions_80c := 0, deductions_80d := 0,
        hra_exemption := 0, other_deductions := 0, regime := "old" }).tax_amount = 0 ∧
    (calculate_tax
      { income := 500000, deductions_80c := 0, deductions_80d := 0,
        hra_exemption := 0, other_deductions := 0, regime := "old" }).tax_amount = 12500 ∧
    (calculate_tax
      { income := 1000000, deductions_80c := 0, deductions_80d := 0,
        hra_exemption := 0, other_deductions := 0, regime := "old" }).tax_amount = 112500 := by
  refine ⟨?_, ?_, ?_⟩ <;>
    · simp only [calculate_tax, build_tax_response, calculate_tax_old_regime]
      norm_num

/-- C9: any regime string other than "old" (e.g. "OLD", "New", or any
arbitrary string) is not rejected: the result is exactly the
new-regime computation, with the unrecognized regime string echoed
verbatim in the regime field. -/
theorem unrecognized_regime_falls_through (req : TaxCalculationRequest)
    (h : req.regime ≠ "old") :
    calculate_tax req =
      { calculate_tax { req with regime := "new" } with regime := req.regime } := by
  simp only [calculate_tax, build_tax_response, if_neg h,
    if_neg (show ¬ ("new" : String) = "old" by decide)]

/-- C9 witness: the uppercase string "OLD" takes the new-regime branch
and is echoed verbatim. -/
theorem unrecognized_regime_falls_through_witness :
    calculate_tax
      { income := 1000000, deductions_80c := 100000, deductions_80d := 0,
        hra_exemption := 0, other_deductions := 0, regime := "OLD" } =
      { calculate_tax
          { income := 1000000, deductions_80c := 100000, deductions_80d := 0,
            hra_exemption := 0, other_deductions := 0, regime := "new" } with
        regime := "OLD" } :=
  unrecognized_regime_falls_through _ (by decide)

/-- C10: for every request, including negative income and negative
deduction inputs, the returned taxable income is nonnegative. -/
theorem taxable_income_nonneg (req : TaxCalculationRequest) :
    0 ≤ (calculate_tax req).taxable_income := by
  simp only [calculate_tax, build_tax_response]
  split_ifs <;> exact le_max_left 0 _

/-- The old-regime bracket tax is monotone in taxable income. -/
lemma calculate_tax_old_regime_mono {t1 t2 : ℚ} (h : t1 ≤ t2) :
    calculate_tax_old_regime t1 ≤ calculate_tax_old_regime t2 := by
  unfold calculate_tax_old_regime
  split_ifs <;> linarith

/-- The new-regime bracket tax is monotone in taxable income. -/
lemma calculate_tax_new_regime_mono {t1 t2 : ℚ} (h : t1 ≤ t2) :
    calculate_tax_new_regime t1 ≤ calculate_tax_new_regime t2 := by
  unfold calculate_tax_new_regime
  split_ifs <;> linarith

/-- The new-regime bracket tax is never negative. -/
lemma calculate_tax_new_regime_nonneg (t : ℚ) : 0 ≤ calculate_tax_new_regime t := by
  unfold calculate_tax_new_regime
  split_ifs <;> linarith

/-- The new-regime tax after the section 87A rebate override is still
monotone in taxable income: it is 0 up to 700,000 and the bracket value
(which is nonnegative) beyond. -/
lemma new_tax_with_rebate_mono {t1 t2 : ℚ} (h : t1 ≤ t2) :
    (if t1 ≤ 700000 then 0 else calculate_tax_new_regime t1) ≤
    (if t2 ≤ 700000 then 0 else calculate_tax_new_regime t2) := by
  split_ifs with h1 h2 h3
  · exact le_refl 0
  · exact calculate_tax_new_regime_nonneg t2
  · exact absurd (h.trans h3) h1
  · exact calculate_tax_new_regime_mono h

/-- C4: for fixed regime and fixed deduction inputs, the returned total
tax is monotone non-decreasing in gross income, across both regime
branches and across the new-regime rebate threshold. -/
theorem total_tax_monotone (regime : String) (a b c d g1 g2 : ℚ)
    (_hg : 0 ≤ g1) (hgg : g1 ≤ g2) :
    (calculate_tax
      { income := g1, deductions_80c := a, deductions_80d := b,
        hra_exemption := c, other_deductions := d, regime := regime }).total_tax ≤
    (calculate_tax
      { income := g2, deductions_80c := a, deductions_80d := b,
        hra_exemption := c, other_deductions := d, regime := regime }).total_tax := by
  by_cases h : regime = "old"
  · simp only [calculate_tax, build_tax_response, if_pos h]
    have hm := calculate_tax_old_regime_mono
      (max_le_max (le_refl (0 : ℚ))
        (by linarith :
          g1 - (a ⊓ 150000 + b ⊓ 75000 + c + d) ≤ g2 - (a ⊓ 150000 + b ⊓ 75000 + c + d)))
    linarith
  · simp only [calculate_tax, build_tax_response, if_neg h]
    have hm := new_tax_with_rebate_mono
      (max_le_max (le_refl (0 : ℚ)) (by linarith : g1 - 75000 ≤ g2 - 75000))
    linarith

/-- C4 witness: with regime "new" and zero deduction inputs, total tax
at income 700,000 is at most total tax at income 800,000 (a pair
straddling the rebate threshold). -/
theorem total_tax_monotone_witness :
    (calculate_tax
      { income := 700000, deductions_80c := 0, deductions_80d := 0,
        hra_exemption := 0, other_deductions := 0, regime := "new" }).total_tax ≤
    (calculate_tax
      { income := 800000, deductions_80c := 0, deductions_80d := 0,
        hra_exemption := 0, other_deductions := 0, regime := "new" }).total_tax :=
  total_tax_monotone "new" 0 0 0 0 700000 800000 (by norm_num) (by norm_num)
